import Mathlib

/-!
Verification development for the campaign-finance record parser, analytics
engine and the two web routes that consume them (the funding search route and
the per-member funding route).

The two route handlers are translated from the repository sources.  The
parser / analytics / query library they import is not part of the available
sources, so those definitions are modelled from the specification (each such
definition carries a doc comment saying so).  JavaScript numbers are modelled
as rationals (ℚ); strings are processed at the character-list level so that
every definition is executable.
-/

namespace Agora

/-! ## Character-level string utilities -/

/-- Split a character list on a separator character, like the splitting of a
string on a delimiter; the empty list yields one empty field. -/
def splitChar (sep : Char) (cs : List Char) : List (List Char) :=
  cs.foldr (fun c acc =>
    match acc with
    | cur :: rest => if c == sep then [] :: cur :: rest else (c :: cur) :: rest
    | [] => [[c]]) [[]]

/-- Whitespace test for trimming. -/
def isWs (c : Char) : Bool :=
  c == ' ' || c == '\t' || c == '\r' || c == '\n'

/-- Trim whitespace from both ends of a character list. -/
def trimChars (cs : List Char) : List Char :=
  ((cs.dropWhile isWs).reverse.dropWhile isWs).reverse

/-- Numeric value of a decimal digit character. -/
def digitVal (c : Char) : ℕ :=
  c.toNat - Char.toNat '0'

/-- The natural number denoted by a list of decimal digit characters. -/
def natOfDigits (cs : List Char) : ℕ :=
  cs.foldl (fun acc c => acc * 10 + digitVal c) 0

/-- Modelled from the spec: the numeric-field policy of the Record Decoder —
"parse as decimal; on parse failure, substitute 0".  Parses an optional sign,
an integer part and an optional fractional part; any other shape fails. -/
def parseDecimalChars (cs : List Char) : Option ℚ :=
  let signed : Bool × List Char :=
    match cs with
    | '-' :: rest => (true, rest)
    | _ => (false, cs)
  let neg := signed.1
  let cs1 := signed.2
  let intPart := cs1.takeWhile (fun c => c.isDigit)
  let rest1 := cs1.dropWhile (fun c => c.isDigit)
  let finish : ℚ → Option ℚ := fun v => some (if neg then -v else v)
  match rest1 with
  | [] =>
      if intPart.isEmpty then none
      else finish ((natOfDigits intPart : ℚ))
  | '.' :: frac =>
      if frac.all (fun c => c.isDigit) && !intPart.isEmpty then
        finish ((natOfDigits intPart : ℚ) + (natOfDigits frac : ℚ) / (10 : ℚ) ^ frac.length)
      else none
  | _ => none

/-- Modelled from the spec: numeric field parsing with the default-0 policy. -/
def parseDecimal (s : String) : ℚ :=
  (parseDecimalChars (trimChars s.data)).getD 0

/-! ## Data model: decoded financial record -/

/-- Modelled from the spec: one candidate's FEC summary filing for a reporting
cycle (spec §3, FinancialRecord).  Field names follow the names the route
handlers read off the record. -/
structure FinancialRecord where
  candidateId : String
  candidateName : String
  incumbentChallengerStatus : String
  party : String
  state : String
  district : String
  cycleNumber : ℚ
  totalReceipts : ℚ
  individualContributions : ℚ
  partyContributions : ℚ
  pacContributions : ℚ
  candidateContributions : ℚ
  candidateLoans : ℚ
  otherLoans : ℚ
  transfersIn : ℚ
  transfersOut : ℚ
  totalDisbursements : ℚ
  beginningCash : ℚ
  endingCash : ℚ
  totalDebt : ℚ
  coverageEndDate : Option String
deriving DecidableEq

/-- Minimum pipe-separated field count of one source line; the spec fixes a
known, versioned field count of about 30 (its §8 example: "schema requires
20+"), matching the 30-column FEC weball layout named in spec §6. -/
def MIN_FIELDS : ℕ := 30

/-- Modelled from the spec: the Record Decoder (spec §4.1).  One pipe-delimited
line is decoded positionally against the FEC weball column order referenced in
spec §6; a line with fewer fields than the schema requires is a decode failure
(`none`), never a thrown error; numeric fields default to 0 on parse failure;
a blank coverage date becomes `none`. -/
def decodeLineChars (line : List Char) : Option FinancialRecord :=
  let fields := (splitChar '|' line).map (fun f => String.mk (trimChars f))
  if fields.length < MIN_FIELDS then none
  else
    let str : ℕ → String := fun i => fields.getD i ""
    let num : ℕ → ℚ := fun i => parseDecimal (fields.getD i "")
    some {
      candidateId := str 0
      candidateName := str 1
      incumbentChallengerStatus := str 2
      party := str 4
      state := str 18
      district := str 19
      cycleNumber := 2026
      totalReceipts := num 5
      transfersIn := num 6
      totalDisbursements := num 7
      transfersOut := num 8
      beginningCash := num 9
      endingCash := num 10
      candidateContributions := num 11
      candidateLoans := num 12
      otherLoans := num 13
      totalDebt := num 16
      individualContributions := num 17
      pacContributions := num 25
      partyContributions := num 26
      coverageEndDate := if str 27 == "" then none else some (str 27) }

/-- Modelled from the spec: `decodeLine(line: string)`, spec §4.1. -/
def decodeLine (line : String) : Option FinancialRecord :=
  decodeLineChars line.data

/-- Modelled from the spec: the Batch Parser `parseAllRecords(raw: string)`
(spec §4.2): split on newline, trim, drop empty lines, decode each line,
silently drop decode failures, keep input order. -/
def parseAllRecords (raw : String) : List FinancialRecord :=
  (((splitChar '\n' raw.data).map trimChars).filter (fun l => !l.isEmpty)).filterMap
    decodeLineChars

/-! ## Analytics engine -/

/-- One funding-source category of the breakdown: amount and percentage. -/
structure FundingSourceEntry where
  amount : ℚ
  percentage : ℚ
deriving DecidableEq

/-- The five funding-source categories (spec §4.3). -/
structure FundingSources where
  individual : FundingSourceEntry
  pac : FundingSourceEntry
  party : FundingSourceEntry
  candidate : FundingSourceEntry
  other : FundingSourceEntry
deriving DecidableEq

/-- Transfer-activity summary (spec §4.3 step 1–2). -/
structure TransferActivity where
  transfersIn : ℚ
  transfersOut : ℚ
  netTransfers : ℚ
  hasDoubleCountingIssue : Bool
deriving DecidableEq

/-- Financial-health indicators (spec §4.3). -/
structure FinancialHealth where
  cashOnHand : ℚ
  debt : ℚ
  netPosition : ℚ
  burnRate : ℚ
deriving DecidableEq

/-- Adjusted spending and the expenditure-efficiency ratio (spec §4.3). -/
structure Expenditures where
  adjustedTotal : ℚ
  efficiency : ℚ
deriving DecidableEq

/-- Derived analytics for one record (spec §3, FundingAnalytics).  The member
funding route reads `analytics.totalFunding` as the adjusted amount (its own
comment: "This is now the adjusted amount"). -/
structure FundingAnalytics where
  totalFunding : ℚ
  adjustedTotalReceipts : ℚ
  adjustedTotalDisbursements : ℚ
  fundingSources : FundingSources
  transferActivity : TransferActivity
  financialHealth : FinancialHealth
  expenditures : Expenditures
deriving DecidableEq

/-- Modelled from the spec: `calculateFundingAnalytics` (spec §4.3).  Transfer
correction: `adjustedTotalReceipts = totalReceipts - transfersIn` floored at 0,
`adjustedTotalDisbursements = totalDisbursements - transfersOut` floored at 0.
Each category percentage is `amount / max(1, adjustedTotalReceipts) * 100`;
other = adjusted receipts minus the named categories, floored at 0; burn rate
and efficiency are `adjustedTotalDisbursements / max(1, adjustedTotalReceipts)`. -/
def calculateFundingAnalytics (r : FinancialRecord) : FundingAnalytics :=
  let transfersIn := r.transfersIn
  let transfersOut := r.transfersOut
  let adjustedReceipts := max 0 (r.totalReceipts - transfersIn)
  let adjustedDisbursements := max 0 (r.totalDisbursements - transfersOut)
  let candidateAmount := r.candidateContributions + r.candidateLoans
  let namedSum := r.individualContributions + r.pacContributions + r.partyContributions
    + candidateAmount
  let otherAmount := max 0 (adjustedReceipts - namedSum)
  let pct : ℚ → ℚ := fun a => a / max 1 adjustedReceipts * 100
  { totalFunding := adjustedReceipts
    adjustedTotalReceipts := adjustedReceipts
    adjustedTotalDisbursements := adjustedDisbursements
    fundingSources := {
      individual := ⟨r.individualContributions, pct r.individualContributions⟩
      pac := ⟨r.pacContributions, pct r.pacContributions⟩
      party := ⟨r.partyContributions, pct r.partyContributions⟩
      candidate := ⟨candidateAmount, pct candidateAmount⟩
      other := ⟨otherAmount, pct otherAmount⟩ }
    transferActivity := ⟨transfersIn, transfersOut, transfersIn - transfersOut,
      decide (0 < transfersIn) || decide (0 < transfersOut)⟩
    financialHealth := ⟨r.endingCash, r.totalDebt, r.endingCash - r.totalDebt,
      adjustedDisbursements / max 1 adjustedReceipts⟩
    expenditures := ⟨adjustedDisbursements, adjustedDisbursements / max 1 adjustedReceipts⟩ }

/-- Contributor classification labels (spec §3, ContributorProfile). -/
structure ContributorProfile where
  corporateInfluence : Bool
  grassrootsSupport : Bool
  selfFunded : Bool
  partySupported : Bool
  primaryFundingSource : String
deriving DecidableEq

/-- Modelled from the spec: `getContributorAnalysis` (spec §4.4), fixed
thresholds 40 / 60 / 50 / 20 on the adjusted-receipt shares, primary source
chosen as the largest share with ties broken by the fixed precedence
individual > pac > party > candidate > other. -/
def getContributorAnalysis (r : FinancialRecord) : ContributorProfile :=
  let fs := (calculateFundingAnalytics r).fundingSources
  let shares : List (String × ℚ) :=
    [("individual", fs.individual.percentage), ("pac", fs.pac.percentage),
     ("party", fs.party.percentage), ("candidate", fs.candidate.percentage),
     ("other", fs.other.percentage)]
  let primary :=
    (shares.foldl (fun best p => if best.2 < p.2 then p else best)
      ("individual", fs.individual.percentage)).1
  { corporateInfluence := decide (40 < fs.pac.percentage)
    grassrootsSupport := decide (60 < fs.individual.percentage)
    selfFunded := decide (50 < fs.candidate.percentage)
    partySupported := decide (20 < fs.party.percentage)
    primaryFundingSource := primary }

/-! ## Query / lookup layer -/

/-- Does `pre` begin `s`? -/
def startsWithChars (pre s : List Char) : Bool :=
  match pre, s with
  | [], _ => true
  | _ :: _, [] => false
  | a :: p2, _ :: s2 =>
      match s with
      | b :: _ => a == b && startsWithChars p2 s2
      | [] => false

/-- Is `needle` a contiguous part of `s`? -/
def containsSubChars (needle s : List Char) : Bool :=
  match s with
  | [] => needle.isEmpty
  | _ :: s2 => startsWithChars needle s || containsSubChars needle s2

/-- Modelled from the spec: name normalization of the query layer (spec §4.5) —
lowercase, treat the comma of the "Last, First" convention as a separator, and
compare token sets. -/
def nameTokens (s : String) : List (List Char) :=
  (splitChar ' ' ((s.data.map Char.toLower).map (fun c => if c == ',' then ' ' else c))).filter
    (fun t => !t.isEmpty)

/-- Modelled from the spec: the fuzzy candidate-name match (spec §4.5):
case-insensitive substring matching over normalized token sets, tolerant of
"Last, First" versus "First Last" ordering. -/
def matchesCandidateName (query name : String) : Bool :=
  (nameTokens query).all (fun qt => (nameTokens name).any (fun nt => containsSubChars qt nt))

/-- Modelled from the spec: `findByCandidateName(records, query)` (spec §4.5);
returns all matches with the collection order preserved. -/
def findByCandidateName (records : List FinancialRecord) (query : String) :
    List FinancialRecord :=
  records.filter (fun r => matchesCandidateName query r.candidateName)

/-- Modelled from the spec: `findByLocation(records, state, district?)`
(spec §4.5): exact state match, and exact district match when a district is
provided. -/
def findByLocation (records : List FinancialRecord) (state : String)
    (district : Option String) : List FinancialRecord :=
  records.filter (fun r =>
    r.state == state &&
      match district with
      | none => true
      | some d => if d == "" then true else r.district == d)

/-! ## Stable descending sort (the routes sort with `(a, b) => key(b) - key(a)`) -/

/-- Insert into a descending-sorted list, after any element with an equal or
larger key (this keeps the sort stable, as the host's sort is). -/
def insertDescBy {α : Type} (key : α → ℚ) (a : α) : List α → List α
  | [] => [a]
  | b :: bs => if key a < key b then b :: insertDescBy key a bs else a :: b :: bs

/-- Stable sort by descending key, the behaviour of the routes' in-place
`sort((a, b) => key(b) - key(a))`. -/
def sortByDesc {α : Type} (key : α → ℚ) (l : List α) : List α :=
  l.foldr (insertDescBy key) []

/-! ## The funding search route (source: the campaign-finance api route file)

Module-level mutable state is made explicit: the cached record collection and
its timestamp.  `parseCount` is ghost instrumentation counting the invocations
of `parseAllRecords`, used to state the caching claims; it changes exactly when
the source calls the parser.  File reading is abstracted as an
`Except String String` handed to the loader: `Except.ok raw` is a successful
`readFileSync`, `Except.error e` a thrown read error. -/

structure FundingRouteState where
  cachedFundingData : Option (List FinancialRecord)
  cacheTimestamp : ℕ
  parseCount : ℕ
deriving DecidableEq

/-- Source: `CACHE_DURATION = 60 * 60 * 1000` (one hour, in milliseconds). -/
def CACHE_DURATION : ℕ := 60 * 60 * 1000

/-- The body of the source's try/catch: read the raw file, parse it and cache
the result; on a read error return the empty array and leave the cache alone. -/
def fetchAndCache (now : ℕ) (readResult : Except String String)
    (s : FundingRouteState) : List FinancialRecord × FundingRouteState :=
  match readResult with
  | Except.ok raw =>
      let records := parseAllRecords raw
      (records,
       { cachedFundingData := some records, cacheTimestamp := now,
         parseCount := s.parseCount + 1 })
  | Except.error _ => ([], s)

/-- Source: `loadFundingData()` — return the cached data while
`now - cacheTimestamp < CACHE_DURATION` (an array, even empty, is truthy),
otherwise read and re-parse. -/
def loadFundingData (now : ℕ) (readResult : Except String String)
    (s : FundingRouteState) : List FinancialRecord × FundingRouteState :=
  match s.cachedFundingData with
  | some d =>
      if now - s.cacheTimestamp < CACHE_DURATION then (d, s)
      else fetchAndCache now readResult s
  | none => fetchAndCache now readResult s

/-- The query parameters the GET handler reads. -/
structure QueryParams where
  candidate : Option String
  state : Option String
  district : Option String
  type : Option String
deriving DecidableEq

/-- Source: `searchParams.get('type') || 'search'` — a missing or empty type
falls back to the search branch. -/
def effType (q : QueryParams) : String :=
  match q.type with
  | none => "search"
  | some t => if t == "" then "search" else t

/-- JavaScript truthiness of a nullable string parameter. -/
def truthy : Option String → Bool
  | none => false
  | some s => !(s == "")

/-- A record enriched with its analytics, as the search branches return. -/
structure EnrichedRecord where
  record : FinancialRecord
  analytics : FundingAnalytics
  contributorAnalysis : ContributorProfile
deriving DecidableEq

/-- Source: the enrichment applied to each search result. -/
def enrich (r : FinancialRecord) : EnrichedRecord :=
  ⟨r, calculateFundingAnalytics r, getContributorAnalysis r⟩

/-- One entry of the analytics branch's `topFundedCandidates` list.  The
formatted currency string keeps its numeric value here. -/
structure TopFundedEntry where
  name : String
  party : String
  state : String
  district : String
  totalFundingValue : ℚ
  analytics : FundingAnalytics
deriving DecidableEq

/-- Source: the mapping applied to the ten top-funded records. -/
def topFundedEntry (r : FinancialRecord) : TopFundedEntry :=
  ⟨r.candidateName, r.party, r.state, r.district, r.totalReceipts,
   calculateFundingAnalytics r⟩

/-- One entry of the top-donors view.  `amountValue` and `percentageValue` are
the numeric values the source hands to its currency / percentage formatters. -/
structure DonorEntry where
  name : String
  party : String
  state : String
  district : String
  amountValue : ℚ
  percentageValue : ℚ
deriving DecidableEq

/-- Source: a high-PAC entry; its percentage is
`pacContributions / Math.max(1, totalReceipts) * 100`. -/
def highPacEntry (r : FinancialRecord) : DonorEntry :=
  ⟨r.candidateName, r.party, r.state, r.district, r.pacContributions,
   r.pacContributions / max 1 r.totalReceipts * 100⟩

/-- Source: a self-funded entry; its percentage is
`(candidateContributions + candidateLoans) / Math.max(1, totalReceipts) * 100`. -/
def selfFundedEntry (r : FinancialRecord) : DonorEntry :=
  ⟨r.candidateName, r.party, r.state, r.district,
   r.candidateContributions + r.candidateLoans,
   (r.candidateContributions + r.candidateLoans) / max 1 r.totalReceipts * 100⟩

/-- Source: a grassroots entry; its percentage is
`individualContributions / Math.max(1, totalReceipts) * 100`. -/
def grassrootsEntry (r : FinancialRecord) : DonorEntry :=
  ⟨r.candidateName, r.party, r.state, r.district, r.individualContributions,
   r.individualContributions / max 1 r.totalReceipts * 100⟩

/-- The overview block of the analytics branch (numeric values of the
formatted currency strings). -/
structure AnalyticsOverview where
  totalCandidates : ℕ
  totalFundingValue : ℚ
  averageFundingValue : ℚ
deriving DecidableEq

/-- Count a key into an association list, keeping first-insertion order — the
behaviour of a JavaScript object built by `acc[k] = (acc[k] || 0) + 1`. -/
def bumpKey (key : String) : List (String × ℕ) → List (String × ℕ)
  | [] => [(key, 1)]
  | (k, n) :: rest =>
      if k == key then (k, n + 1) :: rest else (k, n) :: bumpKey key rest

/-- Source: the party / state breakdown `reduce`. -/
def breakdownBy (f : FinancialRecord → String) (l : List FinancialRecord) :
    List (String × ℕ) :=
  l.foldl (fun acc r => bumpKey (f r) acc) []

/-- The possible GET responses of the funding search route, one constructor per
`NextResponse.json` site. -/
inductive FundingGetResponse where
  | dataUnavailable : FundingGetResponse
  | searchByCandidate (query : String) (records : List EnrichedRecord) : FundingGetResponse
  | searchByState (state : String) (district : Option String)
      (records : List EnrichedRecord) : FundingGetResponse
  | missingParams : FundingGetResponse
  | analyticsView (overview : AnalyticsOverview)
      (partyBreakdown stateBreakdown : List (String × ℕ))
      (topFunded : List TopFundedEntry) : FundingGetResponse
  | topDonorsView (highPacFunding selfFunded grassroots : List DonorEntry) : FundingGetResponse
  | invalidType : FundingGetResponse
deriving DecidableEq

/-- The HTTP status each response site is sent with. -/
def statusOf : FundingGetResponse → ℕ
  | FundingGetResponse.dataUnavailable => 404
  | FundingGetResponse.missingParams => 400
  | FundingGetResponse.invalidType => 400
  | _ => 200

/-- The error string of each error response site. -/
def errorMessageOf : FundingGetResponse → Option String
  | FundingGetResponse.dataUnavailable => some "Campaign finance data not available"
  | FundingGetResponse.missingParams =>
      some "Please provide candidate name or state parameter"
  | FundingGetResponse.invalidType =>
      some "Invalid type parameter. Use: search, analytics, or top-donors"
  | _ => none

/-- The records payload of a response (the error sites carry `records: []`,
the analytics and top-donors sites no record list at all). -/
def responseRecords : FundingGetResponse → List EnrichedRecord
  | FundingGetResponse.searchByCandidate _ records => records
  | FundingGetResponse.searchByState _ _ records => records
  | _ => []

/-- Source: the GET handler of the funding search route.  The analytics branch
sorts the served array in place with `fundingData.sort(...)`; since the loader
always hands out the cached array itself, that sort lands in the cache, which
the returned state records.  The top-donors branch sorts fresh `filter` copies,
so it leaves the cache alone. -/
def handleGet (q : QueryParams) (now : ℕ) (readResult : Except String String)
    (s : FundingRouteState) : FundingGetResponse × FundingRouteState :=
  let loaded := loadFundingData now readResult s
  let fundingData := loaded.1
  let s1 := loaded.2
  if fundingData.isEmpty then (FundingGetResponse.dataUnavailable, s1)
  else if effType q = "search" then
    if truthy q.candidate then
      let records := findByCandidateName fundingData (q.candidate.getD "")
      (FundingGetResponse.searchByCandidate (q.candidate.getD "") (records.map enrich), s1)
    else if truthy q.state then
      let records := findByLocation fundingData (q.state.getD "") q.district
      (FundingGetResponse.searchByState (q.state.getD "") q.district
        (records.map enrich), s1)
    else (FundingGetResponse.missingParams, s1)
  else if effType q = "analytics" then
    let totalRecords := fundingData.length
    let totalFunding := fundingData.foldl (fun acc r => acc + r.totalReceipts) 0
    let avgFunding := totalFunding / (totalRecords : ℚ)
    let partyBreakdown := breakdownBy (fun r => r.party) fundingData
    let stateBreakdown := breakdownBy (fun r => r.state) fundingData
    let sorted := sortByDesc (fun r => r.totalReceipts) fundingData
    (FundingGetResponse.analyticsView ⟨totalRecords, totalFunding, avgFunding⟩
       partyBreakdown stateBreakdown ((sorted.take 10).map topFundedEntry),
     { s1 with cachedFundingData := some sorted })
  else if effType q = "top-donors" then
    let highPac := (sortByDesc (fun r => r.pacContributions)
      (fundingData.filter (fun r => decide (100000 < r.pacContributions)))).take 20
    let selfF := (sortByDesc (fun r => r.candidateContributions + r.candidateLoans)
      (fundingData.filter
        (fun r => decide (100000 < r.candidateContributions + r.candidateLoans)))).take 20
    let grass := (sortByDesc (fun r => r.individualContributions)
      (fundingData.filter (fun r => decide (50000 < r.individualContributions)))).take 20
    (FundingGetResponse.topDonorsView (highPac.map highPacEntry)
       (selfF.map selfFundedEntry) (grass.map grassrootsEntry), s1)
  else (FundingGetResponse.invalidType, s1)

/-- One entry of the POST bulk-analysis results list. -/
structure PostResult where
  candidateName : String
  found : Bool
  record : Option EnrichedRecord
deriving DecidableEq

/-- Source: the POST loop body for one requested name — `records[0]` (the
first, "most recent" record) is enriched when any record matches. -/
def postEntry (data : List FinancialRecord) (name : String) : PostResult :=
  match findByCandidateName data name with
  | [] => ⟨name, false, none⟩
  | rec0 :: _ => ⟨name, true, some (enrich rec0)⟩

/-- The POST response summary block. -/
structure PostSummary where
  requested : ℕ
  found : ℕ
  missing : ℕ
deriving DecidableEq

/-- The POST response: per-name results and the summary. -/
structure PostResponse where
  results : List PostResult
  summary : PostSummary
deriving DecidableEq

/-- Source: the POST bulk-analysis body over an already-loaded collection:
one result per requested name in request order, and the summary counts. -/
def postResponse (data : List FinancialRecord) (candidates : List String) :
    PostResponse :=
  let results := candidates.map (postEntry data)
  ⟨results,
   ⟨candidates.length, (results.filter (fun r => r.found)).length,
    (results.filter (fun r => !r.found)).length⟩⟩

/-- Source: the POST handler — load (through the same cache) and analyse. -/
def handlePost (candidates : List String) (now : ℕ)
    (readResult : Except String String) (s : FundingRouteState) :
    PostResponse × FundingRouteState :=
  let loaded := loadFundingData now readResult s
  (postResponse loaded.1 candidates, loaded.2)

/-! ## The per-member funding route (source: members/[id]/funding/route.ts) -/

/-- Module state of the member funding route: the parsed collection is cached
in a module-level variable with no timestamp.  `parseCount` is the same ghost
instrumentation as for the search route. -/
structure GlobalFundingState where
  globalFundingData : Option (List FinancialRecord)
  parseCount : ℕ
deriving DecidableEq

/-- Source: `loadGlobalFundingData()` — return the module-level collection if
it was ever set, else read and parse once; a read error yields the empty
array without touching the cache. -/
def loadGlobalFundingData (readResult : Except String String)
    (s : GlobalFundingState) : List FinancialRecord × GlobalFundingState :=
  match s.globalFundingData with
  | some d => (d, s)
  | none =>
      match readResult with
      | Except.ok raw =>
          let records := parseAllRecords raw
          (records, ⟨some records, s.parseCount + 1⟩)
      | Except.error _ => ([], s)

/-- A call of `loadGlobalFundingData` by a request arriving at wall-clock time
`now`: the source consults no clock there, so the result ignores `now`. -/
def loadGlobalFundingDataAt (_now : ℕ) (readResult : Except String String)
    (s : GlobalFundingState) : List FinancialRecord × GlobalFundingState :=
  loadGlobalFundingData readResult s

/-- The member fields the funding route reads. -/
structure MemberInfo where
  firstName : String
  lastName : String
  party : String
  state : String
  chamber : String
deriving DecidableEq

/-- Source: the member route's record search — exact "Last, First" query first;
if it finds nothing, retry with the last name alone and, when that is
ambiguous, keep only records of the member's state. -/
def memberFundingRecords (data : List FinancialRecord) (m : MemberInfo) :
    List FinancialRecord :=
  let memberName := m.lastName ++ ", " ++ m.firstName
  let recs := findByCandidateName data memberName
  if recs.isEmpty then
    let recs2 := findByCandidateName data m.lastName
    if 1 < recs2.length then recs2.filter (fun r => r.state == m.state) else recs2
  else recs

/-- Source: `getFinancialHealthStatus` of the member funding route. -/
def getFinancialHealthStatus (h : FinancialHealth) : String :=
  if h.netPosition < 0 then "Concerning"
  else if (8 : ℚ) / 10 < h.burnRate then "High Burn Rate"
  else if 100000 < h.cashOnHand then "Well Funded"
  else if 50000 < h.cashOnHand then "Adequate"
  else "Limited Resources"

/-- The summary block of the member route's funding analysis. -/
structure FundingSummaryView where
  totalRaised : ℚ
  totalSpent : ℚ
  cashOnHand : ℚ
  debt : ℚ
  netPosition : ℚ
  coveragePeriod : Option String
  hasTransferIssue : Bool
  transfersIn : ℚ
  transfersOut : ℚ
  netTransfers : ℚ
  adjustedAmount : Bool
  adjustedSpent : Bool
  rawTotalReceipts : ℚ
  rawTotalDisbursements : ℚ
deriving DecidableEq

/-- The financial-health block of the member route's funding analysis;
`debtToFunding` is the source's debt ratio
`debt / Math.max(1, analytics.totalFunding)`. -/
structure FinancialHealthView where
  efficiency : ℚ
  burnRate : ℚ
  debtToFunding : ℚ
  status : String
deriving DecidableEq

/-- One historical (earlier-cycle) entry of the member route's response. -/
structure HistoricalEntry where
  cycle : ℚ
  totalRaised : ℚ
  totalSpent : ℚ
  cashOnHand : ℚ
deriving DecidableEq

/-- The member route's `fundingAnalysis` response block. -/
structure FundingAnalysisView where
  summary : FundingSummaryView
  fundingSources : FundingSources
  influenceAnalysis : ContributorProfile
  financialHealth : FinancialHealthView
  historicalData : List HistoricalEntry
deriving DecidableEq

/-- Source: the member route's `fundingAnalysis` construction from the primary
record and the remaining (historical) records. -/
def buildFundingAnalysis (primary : FinancialRecord)
    (rest : List FinancialRecord) : FundingAnalysisView :=
  let analytics := calculateFundingAnalytics primary
  let contributorAnalysis := getContributorAnalysis primary
  { summary := {
      totalRaised := analytics.totalFunding
      totalSpent := analytics.expenditures.adjustedTotal
      cashOnHand := analytics.financialHealth.cashOnHand
      debt := analytics.financialHealth.debt
      netPosition := analytics.financialHealth.netPosition
      coveragePeriod := primary.coverageEndDate
      hasTransferIssue := analytics.transferActivity.hasDoubleCountingIssue
      transfersIn := analytics.transferActivity.transfersIn
      transfersOut := analytics.transferActivity.transfersOut
      netTransfers := analytics.transferActivity.netTransfers
      adjustedAmount := decide (analytics.adjustedTotalReceipts ≠ primary.totalReceipts)
      adjustedSpent := decide (analytics.adjustedTotalDisbursements ≠ primary.totalDisbursements)
      rawTotalReceipts := primary.totalReceipts
      rawTotalDisbursements := primary.totalDisbursements }
    fundingSources := analytics.fundingSources
    influenceAnalysis := contributorAnalysis
    financialHealth := {
      efficiency := analytics.expenditures.efficiency
      burnRate := analytics.financialHealth.burnRate
      debtToFunding := analytics.financialHealth.debt / max 1 analytics.totalFunding
      status := getFinancialHealthStatus analytics.financialHealth }
    historicalData := (rest.take 3).map
      (fun r => ⟨r.cycleNumber, r.totalReceipts, r.totalDisbursements, r.endingCash⟩) }

/-- Source: the member route selects `fundingRecords[0]` as the primary record
("the most recent record (first one)") and builds the analysis from it;
`none` models the no-records response. -/
def memberFundingAnalysis (data : List FinancialRecord) (m : MemberInfo) :
    Option FundingAnalysisView :=
  match memberFundingRecords data m with
  | [] => none
  | primary :: rest => some (buildFundingAnalysis primary rest)

/-! ## Derived quantities the claims talk about -/

/-- The sum of the four named funding-source category amounts (individual,
pac, party, candidate = personal + loans). -/
def namedCategorySum (r : FinancialRecord) : ℚ :=
  r.individualContributions + r.pacContributions + r.partyContributions
    + (r.candidateContributions + r.candidateLoans)

/-- The sum of the five funding-source percentages of a record's analytics. -/
def fundingPercentageSum (r : FinancialRecord) : ℚ :=
  (calculateFundingAnalytics r).fundingSources.individual.percentage
    + (calculateFundingAnalytics r).fundingSources.pac.percentage
    + (calculateFundingAnalytics r).fundingSources.party.percentage
    + (calculateFundingAnalytics r).fundingSources.candidate.percentage
    + (calculateFundingAnalytics r).fundingSources.other.percentage

/-! ## Concrete records used as inputs of witnesses and counterexamples -/

/-- A benign all-zero record. -/
def sampleRecord : FinancialRecord :=
  { candidateId := "H0CA00001", candidateName := "DOE, JOHN",
    incumbentChallengerStatus := "I", party := "IND", state := "CA", district := "01",
    cycleNumber := 2026, totalReceipts := 0, individualContributions := 0,
    partyContributions := 0, pacContributions := 0, candidateContributions := 0,
    candidateLoans := 0, otherLoans := 0, transfersIn := 0, transfersOut := 0,
    totalDisbursements := 0, beginningCash := 0, endingCash := 0, totalDebt := 0,
    coverageEndDate := none }

/-- The spec §8 end-to-end scenario: 100000 raised, 20000 transferred in,
50000 individual, 30000 PAC. -/
def specEndToEndRecord : FinancialRecord := { sampleRecord with
  totalReceipts := 100000
  transfersIn := 20000
  individualContributions := 50000
  pacContributions := 30000 }

/-- A record whose filed total is negative (refund-heavy filings produce such
lines, and the decoder parses signed decimals). -/
def negativeReceiptsRecord : FinancialRecord := { sampleRecord with
  totalReceipts := -5 }

/-- A record whose named category amounts exceed its adjusted receipts. -/
def overstatedComponentsRecord : FinancialRecord := { sampleRecord with
  totalReceipts := 100
  transfersIn := 60
  individualContributions := 80 }

/-- A record with positive adjusted receipts below one dollar. -/
def fractionalReceiptsRecord : FinancialRecord := { sampleRecord with
  totalReceipts := 1/2
  individualContributions := 1/2 }

/-- A record with zero filed total receipts but a nonzero individual amount
(the decoder's default-0 policy produces such records when the totals column
is blank and the category column is not). -/
def zeroTotalNonzeroComponentRecord : FinancialRecord := { sampleRecord with
  individualContributions := 50 }

/-! ## C2 — transfer correction -/

/-- C2 counterexample: the claim's inequality `adjustedTotalReceipts <=
totalReceipts` fails on a record with a negative filed total: the floor at 0
raises the adjusted figure to 0, strictly above the raw -5. -/
theorem adjusted_receipts_exceed_negative_raw_total :
    (calculateFundingAnalytics negativeReceiptsRecord).adjustedTotalReceipts = 0
    ∧ ¬ ((calculateFundingAnalytics negativeReceiptsRecord).adjustedTotalReceipts
          ≤ negativeReceiptsRecord.totalReceipts) := by
  constructor
  · norm_num [calculateFundingAnalytics, negativeReceiptsRecord, sampleRecord]
  · norm_num [calculateFundingAnalytics, negativeReceiptsRecord, sampleRecord]

/-- C2 (amended): for every record, `adjustedTotalReceipts =
max(0, totalReceipts - transfersIn)` and `adjustedTotalDisbursements =
max(0, totalDisbursements - transfersOut)` hold unconditionally, and the
inequalities `adjusted <= raw` hold for every record whose raw totals and
transfer fields are nonnegative. -/
theorem transfer_correction_adjusted_totals (r : FinancialRecord) :
    (calculateFundingAnalytics r).adjustedTotalReceipts
        = max 0 (r.totalReceipts - r.transfersIn)
    ∧ (calculateFundingAnalytics r).adjustedTotalDisbursements
        = max 0 (r.totalDisbursements - r.transfersOut)
    ∧ (0 ≤ r.totalReceipts → 0 ≤ r.transfersIn →
        (calculateFundingAnalytics r).adjustedTotalReceipts ≤ r.totalReceipts)
    ∧ (0 ≤ r.totalDisbursements → 0 ≤ r.transfersOut →
        (calculateFundingAnalytics r).adjustedTotalDisbursements
          ≤ r.totalDisbursements) := by
  refine ⟨rfl, rfl, ?_, ?_⟩
  · intro hR hIn
    show max 0 (r.totalReceipts - r.transfersIn) ≤ r.totalReceipts
    exact max_le hR (sub_le_self _ hIn)
  · intro hD hOut
    show max 0 (r.totalDisbursements - r.transfersOut) ≤ r.totalDisbursements
    exact max_le hD (sub_le_self _ hOut)

/-- C2 witness: the transfer-correction theorem at the spec's end-to-end
record, its nonnegativity conditions discharged there. -/
theorem transfer_correction_adjusted_totals_witness :
    0 ≤ specEndToEndRecord.totalReceipts ∧ 0 ≤ specEndToEndRecord.transfersIn
    ∧ 0 ≤ specEndToEndRecord.totalDisbursements ∧ 0 ≤ specEndToEndRecord.transfersOut
    ∧ ((calculateFundingAnalytics specEndToEndRecord).adjustedTotalReceipts
          = max 0 (specEndToEndRecord.totalReceipts - specEndToEndRecord.transfersIn)
       ∧ (calculateFundingAnalytics specEndToEndRecord).adjustedTotalDisbursements
          = max 0 (specEndToEndRecord.totalDisbursements - specEndToEndRecord.transfersOut)
       ∧ (calculateFundingAnalytics specEndToEndRecord).adjustedTotalReceipts
          ≤ specEndToEndRecord.totalReceipts
       ∧ (calculateFundingAnalytics specEndToEndRecord).adjustedTotalDisbursements
          ≤ specEndToEndRecord.totalDisbursements) :=
  ⟨by decide, by decide, by decide, by decide,
   (transfer_correction_adjusted_totals specEndToEndRecord).1,
   (transfer_correction_adjusted_totals specEndToEndRecord).2.1,
   (transfer_correction_adjusted_totals specEndToEndRecord).2.2.1 (by decide) (by decide),
   (transfer_correction_adjusted_totals specEndToEndRecord).2.2.2 (by decide) (by decide)⟩

/-! ## C3 — percentage closure -/

/-- Closure of the percentage formula over plain rationals: when the named
category amounts stay within an adjusted total of at least one, the five
percentages sum to exactly 100. -/
theorem closure_core (A i p pa c l : ℚ) (h1 : 1 ≤ A) (h2 : i + p + pa + (c + l) ≤ A) :
    i / max 1 A * 100 + p / max 1 A * 100 + pa / max 1 A * 100
      + (c + l) / max 1 A * 100 + max 0 (A - (i + p + pa + (c + l))) / max 1 A * 100
      = 100 := by
  have hmax : max (1 : ℚ) A = A := max_eq_right h1
  have hA0 : A ≠ 0 := ne_of_gt (lt_of_lt_of_le one_pos h1)
  have hsub : max (0 : ℚ) (A - (i + p + pa + (c + l))) = A - (i + p + pa + (c + l)) :=
    max_eq_right (sub_nonneg.mpr h2)
  rw [hmax, hsub]
  field_simp
  ring

/-- C3 counterexample: the five percentages do not sum to 100 on every record
with positive adjusted receipts.  With `totalReceipts = 100`,
`transfersIn = 60`, `individualContributions = 80` the adjusted total is 40 and
the percentages sum to 200; with adjusted receipts of 1/2 the `max(1, ...)`
guard makes them sum to 50. -/
theorem percentage_closure_counterexample :
    0 < (calculateFundingAnalytics overstatedComponentsRecord).adjustedTotalReceipts
    ∧ fundingPercentageSum overstatedComponentsRecord = 200
    ∧ fundingPercentageSum overstatedComponentsRecord ≠ 100
    ∧ 0 < (calculateFundingAnalytics fractionalReceiptsRecord).adjustedTotalReceipts
    ∧ fundingPercentageSum fractionalReceiptsRecord = 50
    ∧ fundingPercentageSum fractionalReceiptsRecord ≠ 100 := by
  refine ⟨?_, ?_, ?_, ?_, ?_, ?_⟩ <;>
    norm_num [fundingPercentageSum, calculateFundingAnalytics,
      overstatedComponentsRecord, fractionalReceiptsRecord, sampleRecord]

/-- C3 (amended): every category percentage is
`amount / max(1, adjustedTotalReceipts) * 100` with
`other = max(0, adjustedTotalReceipts - namedCategorySum)`, and for every
record whose adjusted receipts are at least 1 and bound the named category
amounts, the five percentages sum to exactly 100. -/
theorem percentage_closure (r : FinancialRecord) :
    ((calculateFundingAnalytics r).fundingSources.individual.percentage
        = (calculateFundingAnalytics r).fundingSources.individual.amount
          / max 1 (calculateFundingAnalytics r).adjustedTotalReceipts * 100)
    ∧ ((calculateFundingAnalytics r).fundingSources.pac.percentage
        = (calculateFundingAnalytics r).fundingSources.pac.amount
          / max 1 (calculateFundingAnalytics r).adjustedTotalReceipts * 100)
    ∧ ((calculateFundingAnalytics r).fundingSources.party.percentage
        = (calculateFundingAnalytics r).fundingSources.party.amount
          / max 1 (calculateFundingAnalytics r).adjustedTotalReceipts * 100)
    ∧ ((calculateFundingAnalytics r).fundingSources.candidate.percentage
        = (calculateFundingAnalytics r).fundingSources.candidate.amount
          / max 1 (calculateFundingAnalytics r).adjustedTotalReceipts * 100)
    ∧ ((calculateFundingAnalytics r).fundingSources.other.percentage
        = (calculateFundingAnalytics r).fundingSources.other.amount
          / max 1 (calculateFundingAnalytics r).adjustedTotalReceipts * 100)
    ∧ ((calculateFundingAnalytics r).fundingSources.other.amount
        = max 0 ((calculateFundingAnalytics r).adjustedTotalReceipts - namedCategorySum r))
    ∧ (1 ≤ (calculateFundingAnalytics r).adjustedTotalReceipts →
        namedCategorySum r ≤ (calculateFundingAnalytics r).adjustedTotalReceipts →
        fundingPercentageSum r = 100) := by
  refine ⟨rfl, rfl, rfl, rfl, rfl, rfl, ?_⟩
  intro h1 h2
  show (fundingPercentageSum r = 100)
  have h1A : (1 : ℚ) ≤ max 0 (r.totalReceipts - r.transfersIn) := h1
  have h2A : r.individualContributions + r.pacContributions + r.partyContributions
      + (r.candidateContributions + r.candidateLoans)
      ≤ max 0 (r.totalReceipts - r.transfersIn) := h2
  simpa [fundingPercentageSum, calculateFundingAnalytics] using
    closure_core (max 0 (r.totalReceipts - r.transfersIn)) r.individualContributions
      r.pacContributions r.partyContributions r.candidateContributions
      r.candidateLoans h1A h2A

/-- C3 witness: percentage closure at the spec's end-to-end record
(adjusted total 80000, individual 62.5%, pac 37.5%). -/
theorem percentage_closure_witness :
    1 ≤ (calculateFundingAnalytics specEndToEndRecord).adjustedTotalReceipts
    ∧ namedCategorySum specEndToEndRecord
        ≤ (calculateFundingAnalytics specEndToEndRecord).adjustedTotalReceipts
    ∧ fundingPercentageSum specEndToEndRecord = 100
    ∧ (calculateFundingAnalytics specEndToEndRecord).fundingSources.individual.percentage
        = 62.5
    ∧ (calculateFundingAnalytics specEndToEndRecord).fundingSources.pac.percentage
        = 37.5 := by
  refine ⟨?_, ?_, ?_, ?_, ?_⟩
  · norm_num [calculateFundingAnalytics, specEndToEndRecord, sampleRecord]
  · norm_num [namedCategorySum, calculateFundingAnalytics, specEndToEndRecord, sampleRecord]
  · exact (percentage_closure specEndToEndRecord).2.2.2.2.2.2
      (by norm_num [calculateFundingAnalytics, specEndToEndRecord, sampleRecord])
      (by norm_num [namedCategorySum, calculateFundingAnalytics, specEndToEndRecord,
        sampleRecord])
  · norm_num [calculateFundingAnalytics, specEndToEndRecord, sampleRecord]
  · norm_num [calculateFundingAnalytics, specEndToEndRecord, sampleRecord]

/-! ## C4 — zero safety -/

/-- C4 counterexample: a record with `totalReceipts = 0` but a nonzero
individual amount gets percentage 5000, not 0 — the `max(1, ...)` guard keeps
the value finite but not zero. -/
theorem zero_receipts_percentage_counterexample :
    zeroTotalNonzeroComponentRecord.totalReceipts = 0
    ∧ (calculateFundingAnalytics
        zeroTotalNonzeroComponentRecord).fundingSources.individual.percentage = 5000
    ∧ (calculateFundingAnalytics
        zeroTotalNonzeroComponentRecord).fundingSources.individual.percentage ≠ 0
    ∧ (grassrootsEntry zeroTotalNonzeroComponentRecord).percentageValue = 5000 := by
  refine ⟨rfl, ?_, ?_, ?_⟩ <;>
    norm_num [calculateFundingAnalytics, grassrootsEntry,
      zeroTotalNonzeroComponentRecord, sampleRecord]

/-- C4 (amended): for every record with `totalReceipts = 0`, nonnegative
transfers in, and zero named category amounts, every percentage computed by
the engine and by the top-donors view is 0; and every such division is guarded
by a denominator `max 1 (...) ≥ 1`, so no division by zero can occur. -/
theorem zero_safety (r : FinancialRecord)
    (h0 : r.totalReceipts = 0) (hIn : 0 ≤ r.transfersIn)
    (hi : r.individualContributions = 0) (hp : r.pacContributions = 0)
    (hpa : r.partyContributions = 0) (hc : r.candidateContributions = 0)
    (hl : r.candidateLoans = 0) :
    (calculateFundingAnalytics r).adjustedTotalReceipts = 0
    ∧ (calculateFundingAnalytics r).fundingSources.individual.percentage = 0
    ∧ (calculateFundingAnalytics r).fundingSources.pac.percentage = 0
    ∧ (calculateFundingAnalytics r).fundingSources.party.percentage = 0
    ∧ (calculateFundingAnalytics r).fundingSources.candidate.percentage = 0
    ∧ (calculateFundingAnalytics r).fundingSources.other.percentage = 0
    ∧ fundingPercentageSum r = 0
    ∧ (highPacEntry r).percentageValue = 0
    ∧ (selfFundedEntry r).percentageValue = 0
    ∧ (grassrootsEntry r).percentageValue = 0
    ∧ 1 ≤ max 1 (calculateFundingAnalytics r).adjustedTotalReceipts := by
  have hadj : max (0 : ℚ) (r.totalReceipts - r.transfersIn) = 0 := by
    rw [h0]
    exact max_eq_left (sub_nonpos.mpr hIn)
  have hneg : max (0 : ℚ) (-r.transfersIn) = 0 := max_eq_left (neg_nonpos.mpr hIn)
  refine ⟨hadj, ?_, ?_, ?_, ?_, ?_, ?_, ?_, ?_, ?_, le_max_left 1 _⟩ <;>
    simp [calculateFundingAnalytics, fundingPercentageSum, highPacEntry,
      selfFundedEntry, grassrootsEntry, h0, hi, hp, hpa, hc, hl, hadj, hneg, hIn]

/-- C4 witness: zero safety at the all-zero record. -/
theorem zero_safety_witness :
    sampleRecord.totalReceipts = 0 ∧ 0 ≤ sampleRecord.transfersIn
    ∧ ((calculateFundingAnalytics sampleRecord).adjustedTotalReceipts = 0
       ∧ (calculateFundingAnalytics sampleRecord).fundingSources.individual.percentage = 0
       ∧ (calculateFundingAnalytics sampleRecord).fundingSources.pac.percentage = 0
       ∧ (calculateFundingAnalytics sampleRecord).fundingSources.party.percentage = 0
       ∧ (calculateFundingAnalytics sampleRecord).fundingSources.candidate.percentage = 0
       ∧ (calculateFundingAnalytics sampleRecord).fundingSources.other.percentage = 0
       ∧ fundingPercentageSum sampleRecord = 0
       ∧ (highPacEntry sampleRecord).percentageValue = 0
       ∧ (selfFundedEntry sampleRecord).percentageValue = 0
       ∧ (grassrootsEntry sampleRecord).percentageValue = 0
       ∧ 1 ≤ max 1 (calculateFundingAnalytics sampleRecord).adjustedTotalReceipts) :=
  ⟨rfl, by decide,
   zero_safety sampleRecord rfl (by decide) rfl rfl rfl rfl rfl⟩

/-! ## C5 — empty or unreadable input -/

/-- C5: an empty raw blob parses to the empty collection, and each route's
loader turns a read failure into the empty collection instead of an error
(the search route's loader when it has no valid cache to serve, the member
route's loader when its module cache is unset). -/
theorem empty_input_yields_empty_collection (now : ℕ) (e1 e2 : String)
    (s : FundingRouteState) (s2 : GlobalFundingState)
    (h1 : s.cachedFundingData = none ∨ CACHE_DURATION ≤ now - s.cacheTimestamp)
    (h2 : s2.globalFundingData = none) :
    parseAllRecords "" = []
    ∧ (loadFundingData now (Except.error e1) s).1 = []
    ∧ (loadFundingData now (Except.error e1) s).2 = s
    ∧ (loadGlobalFundingData (Except.error e2) s2).1 = []
    ∧ (loadGlobalFundingData (Except.error e2) s2).2 = s2 := by
  refine ⟨rfl, ?_, ?_, ?_, ?_⟩
  · cases hc : s.cachedFundingData with
    | none => simp [loadFundingData, hc, fetchAndCache]
    | some d =>
        rcases h1 with h1 | h1
        · rw [hc] at h1
          cases h1
        · simp [loadFundingData, hc, fetchAndCache, Nat.not_lt.mpr h1]
  · cases hc : s.cachedFundingData with
    | none => simp [loadFundingData, hc, fetchAndCache]
    | some d =>
        rcases h1 with h1 | h1
        · rw [hc] at h1
          cases h1
        · simp [loadFundingData, hc, fetchAndCache, Nat.not_lt.mpr h1]
  · simp [loadGlobalFundingData, h2]
  · simp [loadGlobalFundingData, h2]

/-- C5 witness: empty parse and failing reads at the empty module states. -/
theorem empty_input_yields_empty_collection_witness :
    ((⟨none, 0, 0⟩ : FundingRouteState).cachedFundingData = none
      ∨ CACHE_DURATION ≤ 0 - (⟨none, 0, 0⟩ : FundingRouteState).cacheTimestamp)
    ∧ (⟨none, 0⟩ : GlobalFundingState).globalFundingData = none
    ∧ (parseAllRecords "" = []
       ∧ (loadFundingData 0 (Except.error "ENOENT") ⟨none, 0, 0⟩).1 = []
       ∧ (loadFundingData 0 (Except.error "ENOENT") ⟨none, 0, 0⟩).2 = ⟨none, 0, 0⟩
       ∧ (loadGlobalFundingData (Except.error "ENOENT") ⟨none, 0⟩).1 = []
       ∧ (loadGlobalFundingData (Except.error "ENOENT") ⟨none, 0⟩).2 = ⟨none, 0⟩) :=
  ⟨Or.inl rfl, rfl,
   empty_input_yields_empty_collection 0 "ENOENT" "ENOENT" ⟨none, 0, 0⟩ ⟨none, 0⟩
     (Or.inl rfl) rfl⟩

/-! ## C6 — primary record selection -/

/-- The first element of a filtered list is the first element satisfying the
predicate. -/
theorem head?_filter_eq_find? {α : Type} (p : α → Bool) (l : List α) :
    (l.filter p).head? = l.find? p := by
  induction l with
  | nil => rfl
  | cons a t ih =>
      cases h : p a
      · simp [List.filter_cons, h, List.find?_cons, ih]
      · simp [List.filter_cons, h, List.find?_cons]

/-- C6: when the direct "Last, First" search matches, the member route's
primary record is element 0 of `findByCandidateName`'s result, which is the
first matching record in file order; and the POST bulk route embeds element 0
of `findByCandidateName`'s result for every found name.  No recency check is
involved anywhere. -/
theorem primary_record_is_first_match (data : List FinancialRecord)
    (m : MemberInfo) (name : String)
    (h : findByCandidateName data (m.lastName ++ ", " ++ m.firstName) ≠ []) :
    (memberFundingRecords data m).head?
      = (findByCandidateName data (m.lastName ++ ", " ++ m.firstName)).head?
    ∧ (memberFundingRecords data m).head?
      = data.find? (fun r =>
          matchesCandidateName (m.lastName ++ ", " ++ m.firstName) r.candidateName)
    ∧ (postEntry data name).record
      = ((findByCandidateName data name).head?).map enrich := by
  have hne : (findByCandidateName data (m.lastName ++ ", " ++ m.firstName)).isEmpty
      = false := by
    cases hfd : findByCandidateName data (m.lastName ++ ", " ++ m.firstName) with
    | nil => exact absurd hfd h
    | cons a t => rfl
  refine ⟨?_, ?_, ?_⟩
  · simp [memberFundingRecords, hne]
  · rw [show (memberFundingRecords data m).head?
        = (findByCandidateName data (m.lastName ++ ", " ++ m.firstName)).head? by
      simp [memberFundingRecords, hne]]
    exact head?_filter_eq_find? _ data
  · cases hfd : findByCandidateName data name with
    | nil => simp [postEntry, hfd]
    | cons a t => simp [postEntry, hfd]

/-- C6 witness: a two-record collection in which both records match the
member's name; the primary record is the first of the two in file order. -/
theorem primary_record_is_first_match_witness :
    findByCandidateName
        [sampleRecord, specEndToEndRecord]
        (("DOE" : String) ++ ", " ++ "JOHN") ≠ []
    ∧ ((memberFundingRecords [sampleRecord, specEndToEndRecord]
          ⟨"JOHN", "DOE", "IND", "CA", "house"⟩).head?
        = (findByCandidateName [sampleRecord, specEndToEndRecord]
            (("DOE" : String) ++ ", " ++ "JOHN")).head?
       ∧ (memberFundingRecords [sampleRecord, specEndToEndRecord]
          ⟨"JOHN", "DOE", "IND", "CA", "house"⟩).head?
        = List.find? (fun r =>
            matchesCandidateName (("DOE" : String) ++ ", " ++ "JOHN") r.candidateName)
            [sampleRecord, specEndToEndRecord]
       ∧ (postEntry [sampleRecord, specEndToEndRecord] "DOE").record
        = ((findByCandidateName [sampleRecord, specEndToEndRecord] "DOE").head?).map
            enrich) :=
  ⟨by decide,
   primary_record_is_first_match [sampleRecord, specEndToEndRecord]
     ⟨"JOHN", "DOE", "IND", "CA", "house"⟩ "DOE" (by decide)⟩

/-! ## C9 — POST bulk analysis -/

/-- Splitting a list by a boolean predicate preserves its length. -/
theorem length_filter_bool_split {α : Type} (p : α → Bool) (l : List α) :
    (l.filter p).length + (l.filter (fun a => !p a)).length = l.length := by
  induction l with
  | nil => rfl
  | cons a t ih =>
      cases h : p a <;> simp [List.filter_cons, h] <;> omega

/-- C9: for every loaded collection and requested candidates array, the POST
response has exactly one result per requested name in request order, `found`
is true exactly when `findByCandidateName` returns at least one record, and
the summary satisfies `requested = candidates.length` and
`found + missing = requested`. -/
theorem post_results_align_with_requests (data : List FinancialRecord)
    (candidates : List String) :
    ((postResponse data candidates).results.map (fun r => r.candidateName) = candidates)
    ∧ ((postResponse data candidates).results.map (fun r => r.found)
        = candidates.map (fun n => !(findByCandidateName data n).isEmpty))
    ∧ (postResponse data candidates).summary.requested = candidates.length
    ∧ (postResponse data candidates).summary.found
        + (postResponse data candidates).summary.missing
      = (postResponse data candidates).summary.requested := by
  have hname : ∀ n, (postEntry data n).candidateName = n := by
    intro n
    cases h : findByCandidateName data n <;> simp [postEntry, h]
  have hfound : ∀ n, (postEntry data n).found = !(findByCandidateName data n).isEmpty := by
    intro n
    cases h : findByCandidateName data n <;> simp [postEntry, h]
  refine ⟨?_, ?_, rfl, ?_⟩
  · simp only [postResponse, List.map_map]
    induction candidates with
    | nil => rfl
    | cons c cs ih => simp [hname, ih]
  · simp only [postResponse, List.map_map]
    induction candidates with
    | nil => rfl
    | cons c cs ih => simp [hfound, ih]
  · show ((candidates.map (postEntry data)).filter (fun r => r.found)).length
        + ((candidates.map (postEntry data)).filter (fun r => !r.found)).length
      = candidates.length
    rw [length_filter_bool_split (fun r => r.found) (candidates.map (postEntry data))]
    exact List.length_map _ _

/-! ## C10 — GET error responses -/

/-- C10: the funding GET endpoint answers 404 with the data-unavailable error
and an empty records payload whenever the loaded collection is empty (for any
requested type), and 400 with the missing-parameters error whenever the
collection is nonempty, the type is the search default, and neither candidate
nor state parameter is supplied; in both cases the response carries no
record. -/
theorem get_error_responses (q : QueryParams) (now : ℕ)
    (readResult : Except String String) (s : FundingRouteState) :
    ((loadFundingData now readResult s).1 = [] →
      (handleGet q now readResult s).1 = FundingGetResponse.dataUnavailable
      ∧ statusOf (handleGet q now readResult s).1 = 404
      ∧ errorMessageOf (handleGet q now readResult s).1
          = some "Campaign finance data not available"
      ∧ responseRecords (handleGet q now readResult s).1 = [])
    ∧ ((loadFundingData now readResult s).1 ≠ [] → effType q = "search" →
      truthy q.candidate = false → truthy q.state = false →
      (handleGet q now readResult s).1 = FundingGetResponse.missingParams
      ∧ statusOf (handleGet q now readResult s).1 = 400
      ∧ errorMessageOf (handleGet q now readResult s).1
          = some "Please provide candidate name or state parameter"
      ∧ responseRecords (handleGet q now readResult s).1 = []) := by
  constructor
  · intro hempty
    have h1 : (loadFundingData now readResult s).1.isEmpty = true := by
      rw [hempty]
      rfl
    simp [handleGet, h1, statusOf, errorMessageOf, responseRecords]
  · intro hne hq hc hs
    have h1 : (loadFundingData now readResult s).1.isEmpty = false := by
      cases hd : (loadFundingData now readResult s).1 with
      | nil => exact absurd hd hne
      | cons a t => rfl
    simp [handleGet, h1, hq, hc, hs, statusOf, errorMessageOf, responseRecords]

/-- C10 witness: the 404 response on an unreadable file with no cache, and the
400 response on a warm cache when the search request has no parameter. -/
theorem get_error_responses_witness :
    (loadFundingData 0 (Except.error "ENOENT") ⟨none, 0, 0⟩).1 = []
    ∧ (loadFundingData 0 (Except.error "e") ⟨some [sampleRecord], 0, 0⟩).1 ≠ []
    ∧ effType ⟨none, none, none, none⟩ = "search"
    ∧ truthy (⟨none, none, none, none⟩ : QueryParams).candidate = false
    ∧ (handleGet ⟨none, none, none, none⟩ 0 (Except.error "ENOENT") ⟨none, 0, 0⟩).1
        = FundingGetResponse.dataUnavailable
    ∧ statusOf (handleGet ⟨none, none, none, none⟩ 0 (Except.error "ENOENT")
        ⟨none, 0, 0⟩).1 = 404
    ∧ (handleGet ⟨none, none, none, none⟩ 0 (Except.error "e")
        ⟨some [sampleRecord], 0, 0⟩).1 = FundingGetResponse.missingParams
    ∧ statusOf (handleGet ⟨none, none, none, none⟩ 0 (Except.error "e")
        ⟨some [sampleRecord], 0, 0⟩).1 = 400 := by
  have h404 := (get_error_responses ⟨none, none, none, none⟩ 0 (Except.error "ENOENT")
    ⟨none, 0, 0⟩).1 (by decide)
  have h400 := (get_error_responses ⟨none, none, none, none⟩ 0 (Except.error "e")
    ⟨some [sampleRecord], 0, 0⟩).2 (by decide) rfl rfl rfl
  exact ⟨by decide, by decide, rfl, rfl, h404.1, h404.2.1, h400.1, h400.2.1⟩

/-! ## Shared cache lemmas -/

/-- A loader call within the search route's validity window serves the cache
and changes nothing. -/
theorem load_cache_hit (s : FundingRouteState) (d : List FinancialRecord)
    (now : ℕ) (r : Except String String) (hc : s.cachedFundingData = some d)
    (hv : now - s.cacheTimestamp < CACHE_DURATION) :
    loadFundingData now r s = (d, s) := by
  simp [loadFundingData, hc, hv]

/-- A member-route loader call with a populated module cache serves the cache
and changes nothing, whatever the read result. -/
theorem loadGlobal_cache_hit (g : GlobalFundingState) (d : List FinancialRecord)
    (r : Except String String) (hg : g.globalFundingData = some d) :
    loadGlobalFundingData r g = (d, g) := by
  simp [loadGlobalFundingData, hg]

/-! ## C7 — cache windows -/

/-- C7 counterexample: the member funding route's parsed-collection cache has
no bounded validity window.  A concrete populated state is served unchanged —
never re-parsed — at every request time, and no expiry delay `D` exists after
which a request would invoke the parser again. -/
theorem global_cache_has_no_time_bound :
    ((⟨some [sampleRecord], 0⟩ : GlobalFundingState).globalFundingData
        = some [sampleRecord]
      ∧ ∀ (now : ℕ) (r : Except String String),
          loadGlobalFundingDataAt now r ⟨some [sampleRecord], 0⟩
            = ([sampleRecord], ⟨some [sampleRecord], 0⟩))
    ∧ ¬ ∃ D : ℕ, ∀ (g : GlobalFundingState) (d : List FinancialRecord)
        (setTime now : ℕ) (r : Except String String),
        g.globalFundingData = some d → setTime + D ≤ now →
        (loadGlobalFundingDataAt now r g).2.parseCount = g.parseCount + 1 := by
  constructor
  · exact ⟨rfl, fun now r => rfl⟩
  · rintro ⟨D, h⟩
    have h2 := h ⟨some [sampleRecord], 0⟩ [sampleRecord] 0 D (Except.error "e") rfl
      (by omega)
    simp [loadGlobalFundingDataAt, loadGlobalFundingData] at h2

/-- C7 (amended): the funding search route's cache has the one-hour window —
within it every request is served from cache without re-parsing, and past it a
successful read re-parses and re-stamps the cache — while the member funding
route's parsed-collection cache, once populated, is served unchanged at every
later request with `parseAllRecords` never invoked again. -/
theorem cache_window_behaviour (s : FundingRouteState) (g : GlobalFundingState)
    (d dg : List FinancialRecord) (now now2 : ℕ) (r rg : Except String String)
    (raw : String)
    (hc : s.cachedFundingData = some d)
    (hv : now - s.cacheTimestamp < CACHE_DURATION)
    (hexp : CACHE_DURATION ≤ now2 - s.cacheTimestamp)
    (hg : g.globalFundingData = some dg) :
    loadFundingData now r s = (d, s)
    ∧ (loadFundingData now2 (Except.ok raw) s).1 = parseAllRecords raw
    ∧ (loadFundingData now2 (Except.ok raw) s).2.parseCount = s.parseCount + 1
    ∧ (loadFundingData now2 (Except.ok raw) s).2.cachedFundingData
        = some (parseAllRecords raw)
    ∧ (loadFundingData now2 (Except.ok raw) s).2.cacheTimestamp = now2
    ∧ loadGlobalFundingDataAt now rg g = (dg, g)
    ∧ (loadGlobalFundingDataAt now rg g).2.parseCount = g.parseCount := by
  have hnv : ¬ (now2 - s.cacheTimestamp < CACHE_DURATION) := Nat.not_lt.mpr hexp
  refine ⟨load_cache_hit s d now r hc hv, ?_, ?_, ?_, ?_, ?_, ?_⟩
  · simp [loadFundingData, hc, hnv, fetchAndCache]
  · simp [loadFundingData, hc, hnv, fetchAndCache]
  · simp [loadFundingData, hc, hnv, fetchAndCache]
  · simp [loadFundingData, hc, hnv, fetchAndCache]
  · exact loadGlobal_cache_hit g dg rg hg
  · rw [loadGlobalFundingDataAt, loadGlobal_cache_hit g dg rg hg]

/-- C7 witness: the cache-window theorem at concrete states — a warm search
cache hit at time 1, its expiry at exactly one hour, and the member route's
eternal cache. -/
theorem cache_window_behaviour_witness :
    (⟨some [sampleRecord], 0, 0⟩ : FundingRouteState).cachedFundingData
        = some [sampleRecord]
    ∧ 1 - (⟨some [sampleRecord], 0, 0⟩ : FundingRouteState).cacheTimestamp
        < CACHE_DURATION
    ∧ CACHE_DURATION
        ≤ CACHE_DURATION - (⟨some [sampleRecord], 0, 0⟩ : FundingRouteState).cacheTimestamp
    ∧ (loadFundingData 1 (Except.error "e") ⟨some [sampleRecord], 0, 0⟩
        = ([sampleRecord], ⟨some [sampleRecord], 0, 0⟩)
       ∧ (loadFundingData CACHE_DURATION (Except.ok "") ⟨some [sampleRecord], 0, 0⟩).1
        = parseAllRecords ""
       ∧ (loadFundingData CACHE_DURATION (Except.ok "")
            ⟨some [sampleRecord], 0, 0⟩).2.parseCount
        = (⟨some [sampleRecord], 0, 0⟩ : FundingRouteState).parseCount + 1
       ∧ (loadFundingData CACHE_DURATION (Except.ok "")
            ⟨some [sampleRecord], 0, 0⟩).2.cachedFundingData
        = some (parseAllRecords "")
       ∧ (loadFundingData CACHE_DURATION (Except.ok "")
            ⟨some [sampleRecord], 0, 0⟩).2.cacheTimestamp = CACHE_DURATION
       ∧ loadGlobalFundingDataAt 99999999999 (Except.error "e") ⟨some [sampleRecord], 7⟩
        = ([sampleRecord], ⟨some [sampleRecord], 7⟩)
       ∧ (loadGlobalFundingDataAt 99999999999 (Except.error "e")
            ⟨some [sampleRecord], 7⟩).2.parseCount
        = (⟨some [sampleRecord], 7⟩ : GlobalFundingState).parseCount) :=
  ⟨rfl, by decide, by decide,
   cache_window_behaviour ⟨some [sampleRecord], 0, 0⟩ ⟨some [sampleRecord], 7⟩
     [sampleRecord] [sampleRecord] 1 CACHE_DURATION (Except.error "e")
     (Except.error "e") "" rfl (by decide) (by decide) rfl⟩

/-! ## C8 — the analytics branch sorts the cache in place -/

/-- C8: serving a GET request with `type=analytics` replaces the cached
collection by its stable sort under descending `totalReceipts` (the source
calls `sort` directly on the module-level cached array), and every later
request inside the cache window is served that sorted collection instead of
the parse order. -/
theorem analytics_request_sorts_cache (s : FundingRouteState) (now : ℕ)
    (r : Except String String)
    (h : (loadFundingData now r s).1 ≠ []) :
    (handleGet ⟨none, none, none, some "analytics"⟩ now r s).2.cachedFundingData
      = some (sortByDesc (fun rec => rec.totalReceipts) (loadFundingData now r s).1)
    ∧ ∀ (now2 : ℕ) (r2 : Except String String),
        now2 - (handleGet ⟨none, none, none, some "analytics"⟩ now r s).2.cacheTimestamp
            < CACHE_DURATION →
        loadFundingData now2 r2 (handleGet ⟨none, none, none, some "analytics"⟩ now r s).2
          = (sortByDesc (fun rec => rec.totalReceipts) (loadFundingData now r s).1,
             (handleGet ⟨none, none, none, some "analytics"⟩ now r s).2) := by
  have h1 : (loadFundingData now r s).1.isEmpty = false := by
    cases hd : (loadFundingData now r s).1 with
    | nil => exact absurd hd h
    | cons a t => rfl
  have hcache : (handleGet ⟨none, none, none, some "analytics"⟩ now r s).2.cachedFundingData
      = some (sortByDesc (fun rec => rec.totalReceipts) (loadFundingData now r s).1) := by
    simp [handleGet, h1, show effType ⟨none, none, none, some "analytics"⟩ = "analytics"
      from rfl, show ¬ ("analytics" : String) = "search" by decide]
  exact ⟨hcache, fun now2 r2 hv =>
    load_cache_hit _ _ now2 r2 hcache hv⟩

/-- C8 witness: with two cached records in ascending order of receipts, one
analytics request leaves the cache in descending order — a different list —
and a later search-window request is served that reordered list. -/
theorem analytics_request_sorts_cache_witness :
    (loadFundingData 0 (Except.error "e")
        ⟨some [sampleRecord, specEndToEndRecord], 0, 0⟩).1 ≠ []
    ∧ sortByDesc (fun rec => rec.totalReceipts)
        (loadFundingData 0 (Except.error "e")
          ⟨some [sampleRecord, specEndToEndRecord], 0, 0⟩).1
      = [specEndToEndRecord, sampleRecord]
    ∧ [specEndToEndRecord, sampleRecord] ≠ [sampleRecord, specEndToEndRecord]
    ∧ (handleGet ⟨none, none, none, some "analytics"⟩ 0 (Except.error "e")
        ⟨some [sampleRecord, specEndToEndRecord], 0, 0⟩).2.cachedFundingData
      = some (sortByDesc (fun rec => rec.totalReceipts)
          (loadFundingData 0 (Except.error "e")
            ⟨some [sampleRecord, specEndToEndRecord], 0, 0⟩).1) := by
  have h := analytics_request_sorts_cache ⟨some [sampleRecord, specEndToEndRecord], 0, 0⟩
    0 (Except.error "e") (by decide)
  refine ⟨by decide, ?_, by decide, h.1⟩
  · norm_num [loadFundingData, CACHE_DURATION, sortByDesc, insertDescBy,
      specEndToEndRecord, sampleRecord]

/-! ## C1 — percentage denominators -/

/-- A record that moved half of its 200000 raised between its own committees:
adjusted receipts 100000, PAC contributions 150000. -/
def transferHeavyPacRecord : FinancialRecord := { sampleRecord with
  totalReceipts := 200000
  transfersIn := 100000
  pacContributions := 150000 }

/-- C1 counterexample: the top-donors view divides by the raw total.  For the
transfer-heavy record the route exposes a PAC percentage of 75 — computed on
raw receipts of 200000 — while dividing the amount by the `max(1, ...)`-guarded
adjusted total gives 150. -/
theorem top_donors_percentage_uses_raw_total :
    (handleGet ⟨none, none, none, some "top-donors"⟩ 0 (Except.error "e")
        ⟨some [transferHeavyPacRecord], 0, 0⟩).1
      = FundingGetResponse.topDonorsView [highPacEntry transferHeavyPacRecord] [] []
    ∧ (highPacEntry transferHeavyPacRecord).percentageValue = 75
    ∧ (calculateFundingAnalytics transferHeavyPacRecord).fundingSources.pac.percentage
        = 150
    ∧ (highPacEntry transferHeavyPacRecord).percentageValue
        ≠ (calculateFundingAnalytics transferHeavyPacRecord).fundingSources.pac.amount
          / max 1 (calculateFundingAnalytics transferHeavyPacRecord).adjustedTotalReceipts
          * 100 := by
  refine ⟨?_, ?_, ?_, ?_⟩
  · norm_num [handleGet, loadFundingData, CACHE_DURATION, sortByDesc, insertDescBy,
      transferHeavyPacRecord, sampleRecord, truthy,
      show effType ⟨none, none, none, some "top-donors"⟩ = "top-donors" from rfl,
      show ¬ ("top-donors" : String) = "search" by decide,
      show ¬ ("top-donors" : String) = "analytics" by decide]
  · norm_num [highPacEntry, transferHeavyPacRecord, sampleRecord]
  · norm_num [calculateFundingAnalytics, transferHeavyPacRecord, sampleRecord]
  · norm_num [highPacEntry, calculateFundingAnalytics, transferHeavyPacRecord,
      sampleRecord]

/-- C1 (amended): the analytics engine's funding-source percentages and the
member funding route's exposed percentages and debt ratio all divide by the
`max(1, ...)`-guarded adjusted total receipts, while the top-donors view's
pac / self / individual percentages divide by the `max(1, ...)`-guarded raw
`totalReceipts`. -/
theorem funding_percentage_denominators (primary : FinancialRecord)
    (rest : List FinancialRecord) :
    ((buildFundingAnalysis primary rest).fundingSources.individual.percentage
        = primary.individualContributions
          / max 1 (calculateFundingAnalytics primary).adjustedTotalReceipts * 100)
    ∧ ((buildFundingAnalysis primary rest).fundingSources.pac.percentage
        = primary.pacContributions
          / max 1 (calculateFundingAnalytics primary).adjustedTotalReceipts * 100)
    ∧ ((buildFundingAnalysis primary rest).fundingSources.party.percentage
        = primary.partyContributions
          / max 1 (calculateFundingAnalytics primary).adjustedTotalReceipts * 100)
    ∧ ((buildFundingAnalysis primary rest).fundingSources.candidate.percentage
        = (primary.candidateContributions + primary.candidateLoans)
          / max 1 (calculateFundingAnalytics primary).adjustedTotalReceipts * 100)
    ∧ ((buildFundingAnalysis primary rest).fundingSources.other.percentage
        = max 0 ((calculateFundingAnalytics primary).adjustedTotalReceipts
              - namedCategorySum primary)
          / max 1 (calculateFundingAnalytics primary).adjustedTotalReceipts * 100)
    ∧ ((buildFundingAnalysis primary rest).financialHealth.debtToFunding
        = primary.totalDebt
          / max 1 (calculateFundingAnalytics primary).adjustedTotalReceipts)
    ∧ ((calculateFundingAnalytics primary).totalFunding
        = (calculateFundingAnalytics primary).adjustedTotalReceipts)
    ∧ ((highPacEntry primary).percentageValue
        = primary.pacContributions / max 1 primary.totalReceipts * 100)
    ∧ ((selfFundedEntry primary).percentageValue
        = (primary.candidateContributions + primary.candidateLoans)
          / max 1 primary.totalReceipts * 100)
    ∧ ((grassrootsEntry primary).percentageValue
        = primary.individualContributions / max 1 primary.totalReceipts * 100) :=
  ⟨rfl, rfl, rfl, rfl, rfl, rfl, rfl, rfl, rfl, rfl⟩

end Agora
